import Mathlib

/-!
# Verification of the abp-io-mcp tool dispatch and mode-gating layer

A shallow embedding, in Lean 4, of the control-flow layer of the
`abp-io-mcp` server:

* the tool registry built by `abpTools` (src/tools/index.ts) from nine
  tool groups via JavaScript object-spread merging;
* the restricted-mode filter `filterInfoOnlyTools` (src/index.ts);
* the call-tool dispatch handler (src/index.ts, `CallToolRequestSchema`);
* the hybrid UI tools (src/tools/hybrid-ui-tools.ts) with their
  static-fallback execution strategy;
* the permission tools (`abp_grant_permission`) with zod validation;
* the list-endpoint unwrapping patterns of `AbpApiClient`
  (src/abp-api-client.ts).

Modelling conventions:

* JavaScript strings are `String`; string falsiness (`!s`) is `s = ""`.
* Optional / possibly-`undefined` values are `Option`.
* A tool `execute` that may call the remote collaborator is modelled as a
  function of an `ApiBehavior` oracle (what the remote call would do) and
  returns a pair `(networkCalled, outcome)`: the `Bool` records whether
  the `apiClient` was invoked at all before the outcome was produced.
* Generated template code (long interpolated source-text strings in
  hybrid-ui-tools.ts) is abstracted as constructors carrying exactly the
  inputs that the source interpolates into the text; the envelope fields
  (`success`, `mode`, `warning`, `message`, `data`, `count`, `usage`)
  are modelled concretely.
* An apostrophe character inside a message produced by the source is
  written via `sq` (the single-quote character) to keep string literals
  simple.
-/

/-- The single-quote character, used in interpolated messages of the source. -/
def squote : String := String.singleton (Char.ofNat 39)

/-- Stand-in for a TypeScript `any` value (only ever passed through). -/
inductive JsAny where
  | null
  | bool (b : Bool)
  | num (n : Int)
  | str (s : String)
  deriving DecidableEq, Repr

/-! ## Argument types of the hybrid UI tools (zod schemas, hybrid-ui-tools.ts) -/

/-- `z.enum(['widget', 'modal', 'partial', 'directive', 'pipe'])`. -/
inductive ComponentType where
  | widget | modal | partial' | directive | pipe
  deriving DecidableEq, Repr

/-- `z.enum(['mvc', 'angular', 'blazor', 'blazor-server'])`. -/
inductive Framework where
  | mvc | angular | blazor | blazorServer
  deriving DecidableEq, Repr

def ComponentType.toText : ComponentType → String
  | .widget => "widget"
  | .modal => "modal"
  | .partial' => "partial"
  | .directive => "directive"
  | .pipe => "pipe"

def Framework.toText : Framework → String
  | .mvc => "mvc"
  | .angular => "angular"
  | .blazor => "blazor"
  | .blazorServer => "blazor-server"

/-- One entry of the `properties` array of `abp_generate_component`
(`required` has `.default(false)`, so it is always present after parsing). -/
structure PropSpec where
  name : String
  type : String
  required : Bool
  defaultValue : Option JsAny
  deriving DecidableEq, Repr

/-- Parsed arguments of `abp_generate_component` (hybrid-ui-tools.ts). -/
structure ComponentArgs where
  name : String
  type : ComponentType
  framework : Framework
  properties : Option (List PropSpec)
  template : Option String
  deriving DecidableEq, Repr

/-- Field types accepted by `abp_generate_form`. -/
inductive FieldType where
  | text | email | password | number | date | datetime | select
  | multiselect | checkbox | textarea | file
  deriving DecidableEq, Repr

/-- `validation` sub-object of a form field. -/
structure ValidationSpec where
  minLength : Option Int
  maxLength : Option Int
  pattern : Option String
  min : Option Int
  max : Option Int
  deriving DecidableEq, Repr

/-- One `options` entry of a select-like form field. -/
structure OptionSpec where
  value : JsAny
  label : String
  deriving DecidableEq, Repr

/-- One entry of the `fields` array of `abp_generate_form`. -/
structure FieldSpec where
  name : String
  type : FieldType
  label : String
  required : Option Bool
  validation : Option ValidationSpec
  options : Option (List OptionSpec)
  defaultValue : Option JsAny
  deriving DecidableEq, Repr

/-- `z.enum(['horizontal', 'vertical', 'inline']).default('vertical')`. -/
inductive Layout where
  | horizontal | vertical | inline
  deriving DecidableEq, Repr

/-- Parsed arguments of `abp_generate_form` (hybrid-ui-tools.ts). -/
structure FormArgs where
  name : String
  fields : List FieldSpec
  layout : Layout
  submitAction : Option String
  cancelAction : Option String
  entityId : Option String
  deriving DecidableEq, Repr

/-- `z.enum(['mvc', 'angular', 'blazor', 'blazor-server', 'all'])`. -/
inductive UiFramework where
  | mvc | angular | blazor | blazorServer | all
  deriving DecidableEq, Repr

def UiFramework.toText : UiFramework → String
  | .mvc => "mvc"
  | .angular => "angular"
  | .blazor => "blazor"
  | .blazorServer => "blazor-server"
  | .all => "all"

/-- `z.enum(['forms', 'tables', 'modals', 'widgets', 'navigation', 'all'])`. -/
inductive UiCategory where
  | forms | tables | modals | widgets | navigation | all
  deriving DecidableEq, Repr

def UiCategory.toText : UiCategory → String
  | .forms => "forms"
  | .tables => "tables"
  | .modals => "modals"
  | .widgets => "widgets"
  | .navigation => "navigation"
  | .all => "all"

/-! ## Remote-collaborator payload types (abp-api-client.ts interfaces) -/

/-- `AbpTheme` interface of abp-api-client.ts. -/
structure AbpTheme where
  name : String
  primaryColor : Option String
  secondaryColor : Option String
  customCss : Option String
  deriving DecidableEq, Repr

/-! ## Result envelopes

`ExecutionResult` in the source is a free-form object; the fields that
the hybrid/ui/permission tools actually put into it are modelled as
optional fields of one structure, with the tool-specific `data` payloads
collected in `RData`. -/

/-- Description of one theme in `getStaticThemeInfo`. -/
structure ThemeDesc where
  name : String
  description : String
  features : List String
  frameworks : List String
  documentation : String
  deriving DecidableEq, Repr

/-- `customization` block of `getStaticThemeInfo` (key/value pairs). -/
structure ThemeCustomization where
  colors : List (String × String)
  /-- the `variables` key of the source object (renamed: `variables` is a
  reserved word here) -/
  cssVariables : List (String × String)
  deriving DecidableEq, Repr

/-- `data` payload of `getStaticThemeInfo`. -/
structure StaticThemeInfo where
  availableThemes : List ThemeDesc
  customization : ThemeCustomization
  deriving DecidableEq, Repr

/-- One example entry in `getUiExamples`. -/
structure ExampleItem where
  name : String
  description : String
  code : String
  deriving DecidableEq, Repr

/-- One category block in `getUiExamples`. -/
structure ExampleCategory where
  title : String
  examples : List ExampleItem
  deriving DecidableEq, Repr

/-- The `examples` table of `getUiExamples` (keys `forms`, `tables`, `modals`). -/
structure ExamplesTable where
  forms : ExampleCategory
  tables : ExampleCategory
  modals : ExampleCategory
  deriving DecidableEq, Repr

/-- Generated template code, abstracted as a constructor carrying the
inputs the source interpolates into the emitted source text.
`generateStaticComponent` dispatches on the framework (with
`blazor-server` sharing the blazor template); `generateStaticForm`
always emits the Angular form template (`code: templates.angular`). -/
inductive GeneratedCode where
  | angularComponent (args : ComponentArgs)
  | blazorComponent (args : ComponentArgs)
  | mvcComponent (args : ComponentArgs)
  | angularForm (args : FormArgs)
  deriving DecidableEq, Repr

/-- The tool-specific `data` payloads. -/
inductive RData where
  /-- payload of `generateStaticComponent` -/
  | componentData (name : String) (type : ComponentType) (framework : Framework)
      (code : GeneratedCode) (properties : List PropSpec)
  /-- payload of `getStaticThemeInfo` -/
  | themeStatic (info : StaticThemeInfo)
  /-- payload of theme-list results coming from the remote collaborator -/
  | themes (l : List AbpTheme)
  /-- payload of `generateStaticForm` -/
  | formData (name : String) (fields : List FieldSpec) (layout : Layout)
      (code : GeneratedCode)
  /-- payload of `getUiExamples` when `category = all` -/
  | uiExamplesAll (framework : UiFramework) (categories : ExamplesTable)
      (totalExamples : Nat)
  /-- payload of `getUiExamples` for one category -/
  | uiExamplesCat (framework : UiFramework) (category : UiCategory)
      (examples : ExampleCategory)
  /-- opaque payload returned by the remote collaborator -/
  | apiPayload (v : JsAny)
  deriving DecidableEq, Repr

/-- The free-form result envelope (`ExecutionResult` in the spec's terms):
every field the hybrid/ui/permission tools can attach. -/
structure Result where
  success : Bool := false
  data : Option RData := none
  message : Option String := none
  mode : Option String := none
  warning : Option String := none
  usage : Option String := none
  count : Option Nat := none
  deriving DecidableEq, Repr

/-! ## Remote-collaborator oracle -/

/-- What the single outbound call of a tool invocation would do:
resolve with a value or reject with an error message. -/
inductive ApiBehavior (α : Type) where
  | succeeds (v : α)
  | fails (msg : String)
  deriving DecidableEq, Repr

/-! ## Info-only mode detection (hybrid-ui-tools.ts lines 6-8)

`isInfoOnlyMode = (apiClient) => !apiClient || !(apiClient as any).config?.apiKey`

The client always exists here and its `config.apiKey` is the string the
process was configured with (`options.apiKey || ''`, index.ts line 32); a
JavaScript string is falsy exactly when it is empty. -/

/-- `isInfoOnlyMode` of hybrid-ui-tools.ts as a function of the configured
API-key string. -/
def isInfoOnlyMode (apiKey : String) : Bool := apiKey == ""

/-! ## Static template generators (hybrid-ui-tools.ts) -/

/-- `generateStaticComponent` (hybrid-ui-tools.ts lines 284-305): the
`templates` table maps `angular` and `mvc` to their generators and both
`blazor` and `blazor-server` to the blazor generator. -/
def generateStaticComponent (args : ComponentArgs) : Result :=
  let code : GeneratedCode :=
    match args.framework with
    | .angular => .angularComponent args
    | .blazor => .blazorComponent args
    | .mvc => .mvcComponent args
    | .blazorServer => .blazorComponent args
  { success := true
    data := some (.componentData args.name args.type args.framework code
      (args.properties.getD []))
    message := some ("Static " ++ args.type.toText
      ++ " component template generated for " ++ args.framework.toText)
    mode := some "static"
    usage := some "Copy this code to your project and customize as needed" }

/-- `generateStaticForm` (hybrid-ui-tools.ts lines 453-473): the `code`
field is always the Angular form template (`code: templates.angular`). -/
def generateStaticForm (args : FormArgs) : Result :=
  { success := true
    data := some (.formData args.name args.fields args.layout (.angularForm args))
    message := some ("Static form template generated for " ++ args.name)
    mode := some "static"
    usage := some "Copy this code to your project and customize as needed" }

/-- `getStaticThemeInfo` (hybrid-ui-tools.ts lines 583-622). -/
def getStaticThemeInfo : Result :=
  { success := true
    data := some (.themeStatic
      { availableThemes :=
          [ { name := "LeptonX"
              description := "Modern, professional theme with multiple layouts"
              features := ["Multiple layouts", "Dark/light mode", "RTL support",
                "Customizable colors"]
              frameworks := ["Angular", "Blazor", "MVC"]
              documentation := "https://abp.io/docs/latest/ui-themes/leptonx" },
            { name := "Basic"
              description := "Simple, clean theme for basic applications"
              features := ["Bootstrap based", "Responsive", "Clean design",
                "Easy to customize"]
              frameworks := ["Angular", "Blazor", "MVC"]
              documentation := "https://abp.io/docs/latest/ui-themes/basic" } ]
        customization :=
          { colors :=
              [("primary", "#007bff"), ("secondary", "#6c757d"),
               ("success", "#28a745"), ("info", "#17a2b8"),
               ("warning", "#ffc107"), ("danger", "#dc3545")]
            cssVariables :=
              [("font-family", "Roboto, sans-serif"),
               ("border-radius", "0.25rem"),
               ("box-shadow", "0 0.125rem 0.25rem rgba(0, 0, 0, 0.075)")] } })
    message := some ("Static theme information (use API for applying themes to actual applications)")
    mode := some "static" }

/-- The `examples` table of `getUiExamples` (hybrid-ui-tools.ts lines 625-661). -/
def uiExamplesTable : ExamplesTable :=
  { forms :=
      { title := "Form Examples"
        examples :=
          [ { name := "Basic Form"
              description := "Simple form with validation"
              code := "Basic form template code here..." },
            { name := "Dynamic Form"
              description := "Form with dynamic fields"
              code := "Dynamic form template code here..." } ] }
    tables :=
      { title := "Table Examples"
        examples :=
          [ { name := "Data Grid"
              description := "Sortable, filterable data table"
              code := "Data grid template code here..." } ] }
    modals :=
      { title := "Modal Examples"
        examples :=
          [ { name := "Confirmation Modal"
              description := "Simple confirmation dialog"
              code := "Modal template code here..." } ] } }

/-- `examples[category]`: the table only has keys `forms`, `tables`,
`modals`; indexing it with `widgets` or `navigation` yields `undefined`. -/
def uiExamplesFor : UiCategory → Option ExampleCategory
  | .forms => some uiExamplesTable.forms
  | .tables => some uiExamplesTable.tables
  | .modals => some uiExamplesTable.modals
  | .widgets => none
  | .navigation => none
  | .all => none

/-- `getUiExamples` (hybrid-ui-tools.ts lines 624-686).  For `category =
all`, `totalExamples` is the reduce-sum of the three category sizes; for a
category missing from the table, the fallback block
`{title: "No examples found", examples: []}` is used. -/
def getUiExamples (framework : UiFramework) (category : UiCategory) : Result :=
  if category = .all then
    { success := true
      data := some (.uiExamplesAll framework uiExamplesTable
        (uiExamplesTable.forms.examples.length
          + uiExamplesTable.tables.examples.length
          + uiExamplesTable.modals.examples.length))
      message := some ("UI examples for " ++ framework.toText ++ " framework")
      mode := some "static" }
  else
    { success := true
      data := some (.uiExamplesCat framework category
        ((uiExamplesFor category).getD
          { title := "No examples found", examples := [] }))
      message := some (category.toText ++ " examples for "
        ++ framework.toText ++ " framework")
      mode := some "static" }

/-! ## Hybrid tool execution (hybrid-ui-tools.ts)

Each `execute` is a function of the configured API key, the remote
collaborator's behaviour, and the (already zod-validated) arguments; the
returned `Bool` records whether the remote collaborator was called. -/

/-- `abp_generate_component.execute` (hybrid-ui-tools.ts lines 54-92),
after successful zod validation of the arguments. -/
def hybridGenerateComponentExecute (apiKey : String) (api : ApiBehavior JsAny)
    (args : ComponentArgs) : Bool × Result :=
  if isInfoOnlyMode apiKey then
    (false, generateStaticComponent args)
  else
    match api with
    | .succeeds v =>
      (true,
        { success := true
          data := some (.apiPayload v)
          message := some (args.type.toText ++ " component " ++ squote
            ++ args.name ++ squote ++ " generated successfully via API")
          mode := some "api" })
    | .fails _ =>
      (true,
        { generateStaticComponent args with
            warning := some "API call failed, generated static template instead" })

/-- `abp_get_themes.execute` of the hybrid tool group
(hybrid-ui-tools.ts lines 104-124). -/
def hybridGetThemesExecute (apiKey : String)
    (api : ApiBehavior (List AbpTheme)) : Bool × Result :=
  if isInfoOnlyMode apiKey then
    (false, getStaticThemeInfo)
  else
    match api with
    | .succeeds themes =>
      (true,
        { success := true
          data := some (.themes themes)
          count := some themes.length
          mode := some "api" })
    | .fails _ =>
      (true,
        { getStaticThemeInfo with
            warning := some "API call failed, showing static theme information instead" })

/-- `abp_generate_form.execute` (hybrid-ui-tools.ts lines 198-246),
after successful zod validation of the arguments. -/
def hybridGenerateFormExecute (apiKey : String) (api : ApiBehavior JsAny)
    (args : FormArgs) : Bool × Result :=
  if isInfoOnlyMode apiKey then
    (false, generateStaticForm args)
  else
    match api with
    | .succeeds v =>
      (true,
        { success := true
          data := some (.apiPayload v)
          message := some ("Form " ++ squote ++ args.name ++ squote
            ++ " generated successfully via API")
          mode := some "api" })
    | .fails _ =>
      (true,
        { generateStaticForm args with
            warning := some "API call failed, generated static template instead" })

/-- `abp_get_ui_examples.execute` (hybrid-ui-tools.ts lines 271-278):
purely static in both modes; it never touches the API client. -/
def hybridGetUiExamplesExecute (framework : UiFramework)
    (category : UiCategory) : Bool × Result :=
  (false, getUiExamples framework category)

/-! ## The non-hybrid `abp_get_themes` of ui-tools.ts (lines 92-99)

This is the handler that is actually registered in the server's registry;
it calls `apiClient.getThemes()` unconditionally (the outcome is the
resolved value of the whole `execute`, an exception propagating to the
dispatch boundary on rejection). -/

/-- `abp_get_themes.execute` of ui-tools.ts. -/
def uiGetThemesExecute (api : ApiBehavior (List AbpTheme)) :
    Bool × Except String Result :=
  (true,
    match api with
    | .succeeds themes =>
      .ok { success := true, data := some (.themes themes),
            count := some themes.length }
    | .fails msg => .error msg)

/-! ## `abp_grant_permission` (permission-tools.ts lines 65-100)

The raw argument object may be missing fields or carry a `providerName`
outside the zod enum; `schema.parse` throws before the network call. -/

/-- The raw `args` object handed to `abp_grant_permission.execute`. -/
structure RawGrantArgs where
  providerName : Option String
  providerKey : Option String
  permissionName : Option String
  deriving DecidableEq, Repr

/-- Parsed arguments of `abp_grant_permission`. -/
structure GrantArgs where
  providerName : String
  providerKey : String
  permissionName : String
  deriving DecidableEq, Repr

/-- The zod schema `z.object({providerName: z.enum(['R','U']),
providerKey: z.string(), permissionName: z.string()})` applied to the raw
arguments: a missing required field or a `providerName` outside the enum
makes `parse` throw. -/
def parseGrantArgs (a : RawGrantArgs) : Except String GrantArgs :=
  match a.providerName, a.providerKey, a.permissionName with
  | some pn, some pk, some perm =>
    if pn = "R" ∨ pn = "U" then
      .ok { providerName := pn, providerKey := pk, permissionName := perm }
    else
      .error "Invalid enum value for providerName"
  | _, _, _ => .error "Required field missing"

/-- `abp_grant_permission.execute`: the returned `Nat` counts the calls
made to `apiClient.grantPermission`; a parse failure throws before the
call, so the count is then 0. -/
def grantPermissionExecute (a : RawGrantArgs) (api : ApiBehavior Unit) :
    Nat × Except String Result :=
  match parseGrantArgs a with
  | .error e => (0, .error e)
  | .ok g =>
    match api with
    | .fails msg => (1, .error msg)
    | .succeeds _ =>
      (1, .ok
        { success := true
          message := some ("Permission " ++ squote ++ g.permissionName ++ squote
            ++ " granted to " ++ (if g.providerName = "R" then "role" else "user")
            ++ " " ++ squote ++ g.providerKey ++ squote) })

/-! ## Tool registry (src/tools/index.ts)

A JavaScript object literal is modelled as an association list with
distinct keys; property access is `lookup` (first match).  The spread
`{...a, ...b}` keeps `b`'s binding on a key collision. -/

/-- Identifies which source `execute` function a registry entry is bound
to.  Most tools are plain 1:1 REST forwarders (`api`); the ones whose
execution this file models concretely get their own tag. -/
inductive ExecTag where
  /-- a plain REST-forwarding `execute` named by its tool -/
  | api (tool : String)
  /-- ui-tools.ts `abp_get_themes` (modelled by `uiGetThemesExecute`) -/
  | uiGetThemes
  /-- ui-tools.ts `abp_generate_component` (API-calling) -/
  | uiGenerateComponent
  /-- ui-tools.ts `abp_generate_form` (API-calling) -/
  | uiGenerateForm
  /-- hybrid-ui-tools.ts `abp_generate_component` -/
  | hybridGenerateComponent
  /-- hybrid-ui-tools.ts `abp_get_themes` -/
  | hybridGetThemes
  /-- hybrid-ui-tools.ts `abp_generate_form` -/
  | hybridGenerateForm
  /-- hybrid-ui-tools.ts `abp_get_ui_examples` -/
  | hybridGetUiExamples
  /-- info-tools.ts static informational `execute` named by its tool -/
  | info (tool : String)
  /-- permission-tools.ts `abp_grant_permission` (modelled by
  `grantPermissionExecute`) -/
  | permGrant
  deriving DecidableEq, Repr

/-- A registered tool: the `ToolHandler` record of tools/index.ts,
with the `execute` closure identified by its tag. -/
structure ToolHandler where
  name : String
  exec : ExecTag
  deriving DecidableEq, Repr

/-- A JavaScript object holding tool handlers keyed by name. -/
abbrev Registry := List (String × ToolHandler)

/-- Property access `obj[name]` (keys of an object literal are unique, so
first match is the binding). -/
def Registry.lookup (r : Registry) (n : String) : Option ToolHandler :=
  (r.find? (fun p => p.1 == n)).map Prod.snd

/-- The keys of the object, in insertion order. -/
def Registry.names (r : Registry) : List String := r.map Prod.fst

/-- JavaScript object spread `{...a, ...b}`: key set is the union and
`b`'s binding wins on a collision. -/
def Registry.spread (a b : Registry) : Registry :=
  a.filter (fun p => !(b.names.contains p.1)) ++ b

/-- An entry for a plain REST-forwarding tool. -/
def apiEntry (n : String) : String × ToolHandler := (n, ⟨n, .api n⟩)

/-- An entry for a static info tool. -/
def infoEntry (n : String) : String × ToolHandler := (n, ⟨n, .info n⟩)

/-- `applicationTools` (entity-tools.ts, second export). -/
def applicationToolsRegistry : Registry :=
  [apiEntry "abp_get_applications", apiEntry "abp_get_application",
   apiEntry "abp_create_application", apiEntry "abp_update_application",
   apiEntry "abp_delete_application"]

/-- `moduleTools` (module-tools.ts). -/
def moduleToolsRegistry : Registry :=
  [apiEntry "abp_get_modules", apiEntry "abp_get_module",
   apiEntry "abp_install_module", apiEntry "abp_uninstall_module",
   apiEntry "abp_get_popular_modules"]

/-- `entityTools` (entity-tools.ts, first export). -/
def entityToolsRegistry : Registry :=
  [apiEntry "abp_get_entities", apiEntry "abp_get_entity",
   apiEntry "abp_create_entity", apiEntry "abp_generate_crud"]

/-- `userTools` (user-tools.ts). -/
def userToolsRegistry : Registry :=
  [apiEntry "abp_get_users", apiEntry "abp_get_user",
   apiEntry "abp_create_user", apiEntry "abp_update_user",
   apiEntry "abp_delete_user"]

/-- `tenantTools` (tenant-tools.ts). -/
def tenantToolsRegistry : Registry :=
  [apiEntry "abp_get_tenants", apiEntry "abp_get_tenant",
   apiEntry "abp_create_tenant", apiEntry "abp_update_tenant",
   apiEntry "abp_delete_tenant"]

/-- `permissionTools` (permission-tools.ts). -/
def permissionToolsRegistry : Registry :=
  [apiEntry "abp_get_permissions", apiEntry "abp_get_permissions_by_group",
   ("abp_grant_permission", ⟨"abp_grant_permission", .permGrant⟩),
   apiEntry "abp_revoke_permission"]

/-- `auditTools` (audit-tools.ts). -/
def auditToolsRegistry : Registry :=
  [apiEntry "abp_get_audit_logs", apiEntry "abp_get_audit_log",
   apiEntry "abp_get_audit_summary"]

/-- `backgroundJobTools` (background-job-tools.ts). -/
def backgroundJobToolsRegistry : Registry :=
  [apiEntry "abp_get_background_jobs", apiEntry "abp_get_background_job",
   apiEntry "abp_enqueue_background_job", apiEntry "abp_delete_background_job",
   apiEntry "abp_get_common_job_types"]

/-- `uiTools` (ui-tools.ts). -/
def uiToolsRegistry : Registry :=
  [apiEntry "abp_generate_page",
   ("abp_get_themes", ⟨"abp_get_themes", .uiGetThemes⟩),
   apiEntry "abp_get_theme", apiEntry "abp_apply_theme",
   ("abp_generate_component", ⟨"abp_generate_component", .uiGenerateComponent⟩),
   apiEntry "abp_get_layouts", apiEntry "abp_get_layout",
   apiEntry "abp_update_layout", apiEntry "abp_get_menus",
   apiEntry "abp_get_menu", apiEntry "abp_add_menu_item",
   apiEntry "abp_remove_menu_item", apiEntry "abp_get_widgets",
   apiEntry "abp_get_widget", apiEntry "abp_create_widget",
   apiEntry "abp_update_widget", apiEntry "abp_delete_widget",
   ("abp_generate_form", ⟨"abp_generate_form", .uiGenerateForm⟩),
   apiEntry "abp_get_localization_resources",
   apiEntry "abp_get_localization_resource",
   apiEntry "abp_update_localization_text",
   apiEntry "abp_get_supported_cultures"]

/-- `infoTools` (info-tools.ts). Exported but never merged into `abpTools`. -/
def infoToolsRegistry : Registry :=
  [infoEntry "abp_get_info", infoEntry "abp_get_documentation",
   infoEntry "abp_get_help", infoEntry "abp_list_available_modules",
   infoEntry "abp_list_ui_frameworks", infoEntry "abp_list_database_providers",
   infoEntry "abp_get_cli_commands", infoEntry "abp_get_best_practices",
   infoEntry "abp_get_troubleshooting_guide"]

/-- `hybridUiTools` (hybrid-ui-tools.ts). Exported but never merged into
`abpTools`. -/
def hybridUiToolsRegistry : Registry :=
  [("abp_generate_component", ⟨"abp_generate_component", .hybridGenerateComponent⟩),
   ("abp_get_themes", ⟨"abp_get_themes", .hybridGetThemes⟩),
   ("abp_generate_form", ⟨"abp_generate_form", .hybridGenerateForm⟩),
   ("abp_get_ui_examples", ⟨"abp_get_ui_examples", .hybridGetUiExamples⟩)]

/-- `abpTools(apiClient)` (tools/index.ts lines 21-33): the spread of the
nine tool groups, in source order.  `infoTools` and `hybridUiTools` are
not among them. -/
def abpToolsRegistry : Registry :=
  (((((((applicationToolsRegistry.spread moduleToolsRegistry).spread
    entityToolsRegistry).spread userToolsRegistry).spread
    tenantToolsRegistry).spread permissionToolsRegistry).spread
    auditToolsRegistry).spread backgroundJobToolsRegistry).spread
    uiToolsRegistry

/-! ## Restricted-mode filter (src/index.ts lines 143-173) -/

/-- The hand-maintained allow-list `infoOnlyToolNames`. -/
def infoOnlyToolNames : List String :=
  ["abp_get_info", "abp_get_documentation", "abp_get_help",
   "abp_list_available_modules", "abp_list_ui_frameworks",
   "abp_list_database_providers", "abp_get_cli_commands",
   "abp_get_best_practices", "abp_get_troubleshooting_guide",
   "abp_generate_component", "abp_get_themes", "abp_generate_form",
   "abp_get_ui_examples"]

/-- `filterInfoOnlyTools` (src/index.ts): iterate the entries of the full
registry and keep those whose name is in the allow-list. -/
def filterInfoOnlyTools (allTools : Registry) : Registry :=
  allTools.filter (fun p => infoOnlyToolNames.contains p.1)

/-! ## Dispatch (src/index.ts lines 66-108) -/

/-- The relevant process options (`--api-key`, `--info-only-mode`).
`apiKey = none` models the flag being absent (`undefined`). -/
structure Options where
  apiKey : Option String
  infoOnlyMode : Bool
  deriving DecidableEq, Repr

/-- JavaScript truthiness of `options.apiKey`. -/
def Options.hasApiKey (o : Options) : Bool :=
  match o.apiKey with
  | none => false
  | some s => s != ""

/-- The outcome of `await handler.execute(args)` as seen by the dispatch
boundary: the serialized resolved value (`JSON.stringify(result)`), or
the message of a thrown/rejected error. -/
inductive ExecOutcome where
  | ok (json : String)
  | error (msg : String)
  deriving DecidableEq, Repr

/-- A call-tool request's outcome: an error thrown out of the handler
(caught by the protocol layer, terminating only that request), or a
response `{content: [{type: "text", text}], isError?}`. -/
inductive CallOutcome where
  | thrown (msg : String)
  | response (isError : Bool) (text : String)
  deriving DecidableEq, Repr

/-- The credential error text of src/index.ts lines 75-85. -/
def credentialErrorText : String :=
  "Error: ABP.IO API key is required. Please configure --api-key parameter or use --info-only-mode for informational tools only."

/-- The `CallToolRequestSchema` handler (src/index.ts lines 66-108):
look the name up in the visible registry (throwing `Unknown tool: ...` on
a miss), then apply the credential gate (only when not in info-only
mode), then run `execute`, serializing its resolved value or catching
its error. `exec` is the outcome `execute` would produce if reached. -/
def callTool (opts : Options) (handlers : Registry) (name : String)
    (exec : ExecOutcome) : CallOutcome :=
  match handlers.lookup name with
  | none => .thrown ("Unknown tool: " ++ name)
  | some _ =>
    if !opts.infoOnlyMode && !opts.hasApiKey then
      .response true credentialErrorText
    else
      match exec with
      | .ok json => .response false json
      | .error msg => .response true ("Error: " ++ msg)

/-- Whether the dispatch reaches `handler.execute` at all (no network
call can happen in a call-tool request before this point, because the
tools only touch the API client from inside `execute`). -/
def reachesExecute (opts : Options) (handlers : Registry) (name : String) : Bool :=
  (handlers.lookup name).isSome && (opts.infoOnlyMode || opts.hasApiKey)

/-! ## API client list-endpoint unwrapping (src/abp-api-client.ts)

The client's list endpoints unwrap the response body with one of two
patterns:

* `return response.data.items || response.data;` — used by the domain
  endpoints (applications, modules, entities, permissions, users,
  tenants, audit logs, background jobs);
* `return response.data.items || [];` — used by the UI/localization
  endpoints (themes, layouts, menus, widgets, localization resources,
  cultures).

A list response body is either an object with an `items` field or a bare
array (an array value is always truthy in JavaScript, so `items || x`
returns `items` whenever the field is present, even when it is empty). -/

/-- The two shapes of a list-endpoint response body. -/
inductive ListResponseBody (α : Type) where
  | wrapped (items : List α)
  | bare (arr : List α)
  deriving DecidableEq, Repr

/-- `response.data.items || response.data`. -/
def unwrapItemsOrSelf {α : Type} : ListResponseBody α → List α
  | .wrapped items => items
  | .bare arr => arr

/-- `response.data.items || []`. -/
def unwrapItemsOrEmpty {α : Type} : ListResponseBody α → List α
  | .wrapped items => items
  | .bare _ => []

/-- `'Running' | 'Stopped' | 'Error'`. -/
inductive AppStatus where
  | running | stopped | error
  deriving DecidableEq, Repr

/-- `AbpApplication` interface. -/
structure AbpApplication where
  id : String
  name : String
  displayName : String
  url : String
  status : AppStatus
  version : String
  framework : String
  template : String
  createdAt : String
  lastModified : String
  deriving DecidableEq, Repr

/-- `AbpModule` interface. -/
structure AbpModule where
  id : String
  name : String
  displayName : String
  version : String
  description : String
  dependencies : List String
  isInstalled : Bool
  packageName : String
  deriving DecidableEq, Repr

/-- `AbpEntityProperty` interface. -/
structure AbpEntityProperty where
  name : String
  type : String
  isRequired : Bool
  maxLength : Option Int
  isNullable : Bool
  defaultValue : Option JsAny
  deriving DecidableEq, Repr

/-- `'OneToOne' | 'OneToMany' | 'ManyToOne' | 'ManyToMany'`. -/
inductive RelationshipType where
  | oneToOne | oneToMany | manyToOne | manyToMany
  deriving DecidableEq, Repr

/-- `AbpEntityRelationship` interface. -/
structure AbpEntityRelationship where
  name : String
  targetEntity : String
  type : RelationshipType
  navigationProperty : Option String
  deriving DecidableEq, Repr

/-- `AbpEntity` interface. -/
structure AbpEntity where
  id : String
  name : String
  namespace' : String
  properties : List AbpEntityProperty
  relationships : List AbpEntityRelationship
  baseClass : Option String
  isAuditedEntity : Bool
  isMultiTenant : Bool
  deriving DecidableEq, Repr

/-- `'Both' | 'Host' | 'Tenant'`. -/
inductive MultiTenancySide where
  | both | host | tenant
  deriving DecidableEq, Repr

/-- `AbpPermission` interface. -/
structure AbpPermission where
  name : String
  displayName : String
  parentName : Option String
  isGrantedByDefault : Bool
  multiTenancySide : MultiTenancySide
  groupName : String
  deriving DecidableEq, Repr

/-- `AbpUser` interface. -/
structure AbpUser where
  id : String
  userName : String
  name : String
  surname : String
  email : String
  emailConfirmed : Bool
  phoneNumber : Option String
  isActive : Bool
  roleNames : List String
  tenantId : Option String
  creationTime : String
  lastLoginTime : Option String
  deriving DecidableEq, Repr

/-- `AbpTenant` interface. -/
structure AbpTenant where
  id : String
  name : String
  isActive : Bool
  editionId : Option String
  editionDisplayName : Option String
  connectionString : Option String
  creationTime : String
  subscriptionEndDateUtc : Option String
  deriving DecidableEq, Repr

/-- `AbpAuditLog` interface. -/
structure AbpAuditLog where
  id : String
  userId : Option String
  userName : Option String
  tenantId : Option String
  tenantName : Option String
  serviceName : Option String
  methodName : Option String
  parameters : Option String
  returnValue : Option String
  executionTime : String
  executionDuration : Int
  clientIpAddress : Option String
  browserInfo : Option String
  httpStatusCode : Option Int
  exception : Option String
  deriving DecidableEq, Repr

/-- `'Low' | 'Normal' | 'High'`. -/
inductive JobPriority where
  | low | normal | high
  deriving DecidableEq, Repr

/-- `AbpBackgroundJob` interface. -/
structure AbpBackgroundJob where
  id : String
  jobType : String
  jobArgs : String
  tryCount : Int
  maxTryCount : Int
  priority : JobPriority
  creationTime : String
  nextTryTime : String
  lastTryTime : Option String
  isAbandoned : Bool
  deriving DecidableEq, Repr

/-- `AbpLayout` interface. -/
structure AbpLayout where
  name : String
  displayName : String
  description : Option String
  template : Option String
  deriving DecidableEq, Repr

/-- `AbpMenuItem` interface. -/
structure AbpMenuItem where
  name : String
  displayName : String
  url : Option String
  icon : Option String
  order : Option Int
  requiredPermissionName : Option String
  target : Option String
  parentName : Option String
  deriving DecidableEq, Repr

/-- `AbpMenu` interface. -/
structure AbpMenu where
  name : String
  displayName : String
  items : List AbpMenuItem
  deriving DecidableEq, Repr

/-- `'chart' | 'table' | 'card' | 'custom'`. -/
inductive WidgetType where
  | chart | table | card | custom
  deriving DecidableEq, Repr

/-- `AbpWidget` interface. -/
structure AbpWidget where
  name : String
  displayName : String
  description : Option String
  type : WidgetType
  configuration : Option JsAny
  permissions : Option (List String)
  refreshInterval : Option Int
  deriving DecidableEq, Repr

/-- `AbpLocalizationResource` interface. -/
structure AbpLocalizationResource where
  name : String
  culture : String
  key : String
  value : String
  deriving DecidableEq, Repr

/-- `AbpCulture` interface. -/
structure AbpCulture where
  name : String
  displayName : String
  deriving DecidableEq, Repr

/-- `getApplications` unwrapping (abp-api-client.ts line 229). -/
def getApplications_unwrap : ListResponseBody AbpApplication → List AbpApplication :=
  unwrapItemsOrSelf

/-- `getModules` unwrapping (line 254). -/
def getModules_unwrap : ListResponseBody AbpModule → List AbpModule :=
  unwrapItemsOrSelf

/-- `getEntities` unwrapping (line 275). -/
def getEntities_unwrap : ListResponseBody AbpEntity → List AbpEntity :=
  unwrapItemsOrSelf

/-- `getPermissions` unwrapping (line 309). -/
def getPermissions_unwrap : ListResponseBody AbpPermission → List AbpPermission :=
  unwrapItemsOrSelf

/-- `getPermissionsByGroup` unwrapping (line 314). -/
def getPermissionsByGroup_unwrap : ListResponseBody AbpPermission → List AbpPermission :=
  unwrapItemsOrSelf

/-- `getUsers` unwrapping (line 340). -/
def getUsers_unwrap : ListResponseBody AbpUser → List AbpUser :=
  unwrapItemsOrSelf

/-- `getTenants` unwrapping (line 366). -/
def getTenants_unwrap : ListResponseBody AbpTenant → List AbpTenant :=
  unwrapItemsOrSelf

/-- `getAuditLogs` unwrapping (line 396). -/
def getAuditLogs_unwrap : ListResponseBody AbpAuditLog → List AbpAuditLog :=
  unwrapItemsOrSelf

/-- `getBackgroundJobs` unwrapping (line 408). -/
def getBackgroundJobs_unwrap : ListResponseBody AbpBackgroundJob → List AbpBackgroundJob :=
  unwrapItemsOrSelf

/-- `getThemes` unwrapping (abp-api-client.ts line 452):
`return response.data.items || [];`. -/
def getThemes_unwrap : ListResponseBody AbpTheme → List AbpTheme :=
  unwrapItemsOrEmpty

/-- `getLayouts` unwrapping (line 488). -/
def getLayouts_unwrap : ListResponseBody AbpLayout → List AbpLayout :=
  unwrapItemsOrEmpty

/-- `getMenus` unwrapping (line 503). -/
def getMenus_unwrap : ListResponseBody AbpMenu → List AbpMenu :=
  unwrapItemsOrEmpty

/-- `getWidgets` unwrapping (line 536). -/
def getWidgets_unwrap : ListResponseBody AbpWidget → List AbpWidget :=
  unwrapItemsOrEmpty

/-- `getLocalizationResources` unwrapping (line 594). -/
def getLocalizationResources_unwrap :
    ListResponseBody AbpLocalizationResource → List AbpLocalizationResource :=
  unwrapItemsOrEmpty

/-- `getSupportedCultures` unwrapping (line 616). -/
def getSupportedCultures_unwrap : ListResponseBody AbpCulture → List AbpCulture :=
  unwrapItemsOrEmpty

/-! ## Shared lemmas about the registry operations -/

/-- `find?` only depends on the predicate pointwise. -/
theorem find?_pred_eq {α : Type} {p q : α → Bool} (h : ∀ a, p a = q a)
    (l : List α) : l.find? p = l.find? q := by
  rw [funext h]

/-- Keys retained by `filterInfoOnlyTools` keep their original binding:
looking an allow-listed name up in the filtered registry gives the full
registry's binding. -/
theorem lookup_filterInfoOnlyTools (r : Registry) (n : String)
    (hn : n ∈ infoOnlyToolNames) :
    (filterInfoOnlyTools r).lookup n = r.lookup n := by
  unfold filterInfoOnlyTools Registry.lookup
  rw [List.find?_filter]
  congr 1
  apply find?_pred_eq
  intro p
  by_cases hp : (p.1 == n) = true
  · have hpe : p.1 = n := by simpa using hp
    simp [hpe, hn, hp]
  · simp [hp]

/-- Membership in the filtered registry's key list. -/
theorem mem_names_filterInfoOnlyTools (r : Registry) (n : String) :
    n ∈ (filterInfoOnlyTools r).names ↔
      n ∈ r.names ∧ n ∈ infoOnlyToolNames := by
  unfold filterInfoOnlyTools Registry.names
  constructor
  · intro hmem
    obtain ⟨p, hp, hpn⟩ := List.mem_map.mp hmem
    obtain ⟨hpr, hcont⟩ := List.mem_filter.mp hp
    refine ⟨List.mem_map.mpr ⟨p, hpr, hpn⟩, ?_⟩
    rw [← hpn]
    exact List.elem_iff.mp hcont
  · rintro ⟨hmem, hall⟩
    obtain ⟨p, hp, hpn⟩ := List.mem_map.mp hmem
    refine List.mem_map.mpr ⟨p, List.mem_filter.mpr ⟨hp, ?_⟩, hpn⟩
    rw [hpn]
    exact List.elem_iff.mpr hall

/-- Spread lookup, miss case: a name with no binding in `b` keeps `a`'s
binding in `{...a, ...b}`. -/
theorem lookup_spread_of_none (a b : Registry) (n : String)
    (hb : b.lookup n = none) :
    (a.spread b).lookup n = a.lookup n := by
  have hf : b.find? (fun q => q.1 == n) = none := by
    unfold Registry.lookup at hb
    rcases hfb : b.find? (fun q => q.1 == n) with _ | p
    · exact hfb
    · rw [hfb] at hb; simp at hb
  have hnotmem : ¬ n ∈ b.names := by
    intro hc
    obtain ⟨p, hp, hpn⟩ := List.mem_map.mp hc
    have := List.find?_eq_none.mp hf p hp
    simp [hpn] at this
  have hnb : b.names.contains n = false := by
    rw [← Bool.not_eq_true]
    intro hc
    exact hnotmem (List.elem_iff.mp hc)
  have hfa : (a.filter (fun p => !(b.names.contains p.1))).find?
      (fun q => q.1 == n) = a.find? (fun q => q.1 == n) := by
    rw [List.find?_filter]
    apply find?_pred_eq
    intro x
    by_cases hx : (x.1 == n) = true
    · have hxe : x.1 = n := by simpa using hx
      simp [hxe, hx, hnotmem]
    · simp [hx]
  unfold Registry.spread Registry.lookup
  rw [List.find?_append, hfa, hf, Option.or_none]

/-- Spread lookup, hit case: a name bound in `b` gets `b`'s binding in
`{...a, ...b}`. -/
theorem lookup_spread_of_some (a b : Registry) (n : String) (h : ToolHandler)
    (hb : b.lookup n = some h) :
    (a.spread b).lookup n = some h := by
  obtain ⟨p, hf, hps⟩ : ∃ p, b.find? (fun q => q.1 == n) = some p
      ∧ p.2 = h := by
    unfold Registry.lookup at hb
    rcases hfb : b.find? (fun q => q.1 == n) with _ | p
    · rw [hfb] at hb; simp at hb
    · rw [hfb] at hb; simp at hb; exact ⟨p, hfb, hb⟩
  have hmemb : n ∈ b.names := by
    have hp := List.mem_of_find?_eq_some hf
    have hpn : p.1 = n := by
      have := List.find?_some hf
      simpa using this
    exact List.mem_map.mpr ⟨p, hp, hpn⟩
  have hcn : b.names.contains n = true := List.elem_iff.mpr hmemb
  have hfa : (a.filter (fun p => !(b.names.contains p.1))).find?
      (fun q => q.1 == n) = none := by
    rw [List.find?_filter, List.find?_eq_none]
    intro x _
    simp only [decide_eq_true_eq, not_and]
    intro hk hbeq
    have hxn : x.1 = n := by simpa using hbeq
    rw [hxn, hcn] at hk
    simp at hk
  unfold Registry.spread Registry.lookup
  rw [List.find?_append, hfa, Option.none_or, hf]
  simpa using hps

/-! ## Claim theorems -/

/-- C1: For every hybrid tool (`abp_generate_component`, `abp_get_themes`,
`abp_generate_form`, `abp_get_ui_examples`), invoking it (i.e. its
`execute` from hybrid-ui-tools.ts, on validated arguments) when no
credential is configured returns a result with `mode = "static"` and
`success = true`, deterministically (the result equals a fixed
api-independent static value for every remote behaviour), and performs no
remote call. -/
theorem hybrid_tools_static_without_credential
    (cargs : ComponentArgs) (fargs : FormArgs) (fw : UiFramework)
    (cat : UiCategory) (apiC apiF : ApiBehavior JsAny)
    (apiT : ApiBehavior (List AbpTheme)) :
    hybridGenerateComponentExecute "" apiC cargs = (false, generateStaticComponent cargs)
    ∧ (generateStaticComponent cargs).mode = some "static"
    ∧ (generateStaticComponent cargs).success = true
    ∧ hybridGetThemesExecute "" apiT = (false, getStaticThemeInfo)
    ∧ getStaticThemeInfo.mode = some "static"
    ∧ getStaticThemeInfo.success = true
    ∧ hybridGenerateFormExecute "" apiF fargs = (false, generateStaticForm fargs)
    ∧ (generateStaticForm fargs).mode = some "static"
    ∧ (generateStaticForm fargs).success = true
    ∧ hybridGetUiExamplesExecute fw cat = (false, getUiExamples fw cat)
    ∧ (getUiExamples fw cat).mode = some "static"
    ∧ (getUiExamples fw cat).success = true := by
  refine ⟨rfl, rfl, rfl, rfl, rfl, rfl, rfl, rfl, rfl, rfl, ?_, ?_⟩
  · unfold getUiExamples
    split <;> rfl
  · unfold getUiExamples
    split <;> rfl

/-- C2: The restricted-mode filter applied to the registry actually built
by `abpTools` retains exactly `abp_get_themes`, `abp_generate_component`
and `abp_generate_form` (in registry order), bound to the API-calling
ui-tools handlers; every other allow-listed name — the nine info tools
and `abp_get_ui_examples` — is absent from that registry, because
`infoTools` and `hybridUiTools` are never merged into `abpTools`. -/
theorem restricted_registry_contents :
    (filterInfoOnlyTools abpToolsRegistry).names =
      ["abp_get_themes", "abp_generate_component", "abp_generate_form"]
    ∧ (filterInfoOnlyTools abpToolsRegistry).lookup "abp_get_themes" =
        some ⟨"abp_get_themes", .uiGetThemes⟩
    ∧ (filterInfoOnlyTools abpToolsRegistry).lookup "abp_generate_component" =
        some ⟨"abp_generate_component", .uiGenerateComponent⟩
    ∧ (filterInfoOnlyTools abpToolsRegistry).lookup "abp_generate_form" =
        some ⟨"abp_generate_form", .uiGenerateForm⟩
    ∧ (["abp_get_info", "abp_get_documentation", "abp_get_help",
        "abp_list_available_modules", "abp_list_ui_frameworks",
        "abp_list_database_providers", "abp_get_cli_commands",
        "abp_get_best_practices", "abp_get_troubleshooting_guide",
        "abp_get_ui_examples"].all
          (fun nm => (abpToolsRegistry.lookup nm).isNone)) = true
    ∧ infoToolsRegistry.names.contains "abp_get_info" = true
    ∧ hybridUiToolsRegistry.names =
        ["abp_generate_component", "abp_get_themes", "abp_generate_form",
         "abp_get_ui_examples"] := by
  decide

/-- C3 (counterexample): With no credential and restricted mode active
(`--info-only-mode`, `opts = ⟨none, true⟩`), the claim fails on the code:
invoking the non-hybrid tool `abp_get_users` does not return an
`isError` result mentioning the credential requirement — the name is
absent from the visible set, so the handler throws `Unknown tool:
abp_get_users`; and invoking the non-hybrid `abp_get_themes` (which the
filter retains, bound to the API-calling ui-tools handler) reaches
`execute`, which does attempt a network call, and on rejection yields an
error text that also never mentions the credential. -/
theorem restricted_mode_counterexample :
    (filterInfoOnlyTools abpToolsRegistry).lookup "abp_get_users" = none
    ∧ callTool ⟨none, true⟩ (filterInfoOnlyTools abpToolsRegistry)
        "abp_get_users" (.ok "") = .thrown "Unknown tool: abp_get_users"
    ∧ (filterInfoOnlyTools abpToolsRegistry).lookup "abp_get_themes" =
        some ⟨"abp_get_themes", .uiGetThemes⟩
    ∧ reachesExecute ⟨none, true⟩ (filterInfoOnlyTools abpToolsRegistry)
        "abp_get_themes" = true
    ∧ (uiGetThemesExecute (.fails "connect ECONNREFUSED")).1 = true
    ∧ callTool ⟨none, true⟩ (filterInfoOnlyTools abpToolsRegistry)
        "abp_get_themes" (.error "connect ECONNREFUSED") =
          .response true "Error: connect ECONNREFUSED" := by
  decide

/-- C3 (amended): The credential-requirement `isError` result is produced
when the credential is absent and restricted mode is NOT active: then any
registered tool's invocation returns `isError = true` with the
credential message and `execute` is never reached (so no network call).
Under restricted mode, a non-hybrid tool outside the visible set is
invisible and invoking it throws an `Unknown tool` error, again without
reaching any `execute`. -/
theorem credential_gate_and_invisibility (o : Options) (handlers : Registry)
    (name : String) (exec : ExecOutcome) (hkey : o.hasApiKey = false) :
    (o.infoOnlyMode = false → (handlers.lookup name).isSome = true →
        callTool o handlers name exec = .response true credentialErrorText
        ∧ reachesExecute o handlers name = false)
    ∧ (handlers.lookup name = none →
        callTool o handlers name exec = .thrown ("Unknown tool: " ++ name)
        ∧ reachesExecute o handlers name = false) := by
  constructor
  · intro hmode hsome
    rcases hl : handlers.lookup name with _ | h
    · rw [hl] at hsome
      simp at hsome
    · unfold callTool reachesExecute
      rw [hl]
      simp [hmode, hkey]
  · intro hnone
    unfold callTool reachesExecute
    rw [hnone]
    simp

/-- C3 (witness): the amended theorem applied with no credential, mode
not restricted, at the registered non-hybrid tool `abp_get_users`. -/
theorem credential_gate_witness :
    Options.hasApiKey ⟨none, false⟩ = false
    ∧ Options.infoOnlyMode ⟨none, false⟩ = false
    ∧ (abpToolsRegistry.lookup "abp_get_users").isSome = true
    ∧ callTool ⟨none, false⟩ abpToolsRegistry "abp_get_users" (.ok "") =
        .response true credentialErrorText
    ∧ reachesExecute ⟨none, false⟩ abpToolsRegistry "abp_get_users" = false := by
  refine ⟨by decide, by decide, by decide, ?_⟩
  have h := (credential_gate_and_invisibility ⟨none, false⟩ abpToolsRegistry
    "abp_get_users" (.ok "") (by decide)).1 (by decide) (by decide)
  exact ⟨h.1, h.2⟩

/-- C4: For every registry, the restricted-mode filter returns a mapping
whose key set is a subset of the registry's keys and of the fixed
allow-list, and every retained name is bound to the identical,
unmutated entry of the unrestricted registry. -/
theorem filter_restricts_and_preserves (r : Registry) (n : String)
    (hmem : n ∈ (filterInfoOnlyTools r).names) :
    n ∈ r.names ∧ n ∈ infoOnlyToolNames
    ∧ (filterInfoOnlyTools r).lookup n = r.lookup n := by
  obtain ⟨h1, h2⟩ := (mem_names_filterInfoOnlyTools r n).mp hmem
  exact ⟨h1, h2, lookup_filterInfoOnlyTools r n h2⟩

/-- C4 (witness): the filter theorem applied to the actual registry at
the retained name `abp_get_themes`. -/
theorem filter_restricts_witness :
    "abp_get_themes" ∈ (filterInfoOnlyTools abpToolsRegistry).names
    ∧ ("abp_get_themes" ∈ abpToolsRegistry.names
      ∧ "abp_get_themes" ∈ infoOnlyToolNames
      ∧ (filterInfoOnlyTools abpToolsRegistry).lookup "abp_get_themes" =
          abpToolsRegistry.lookup "abp_get_themes") :=
  ⟨by decide,
   filter_restricts_and_preserves abpToolsRegistry "abp_get_themes" (by decide)⟩

/-- C5: For every hybrid tool invoked with a credential configured, a
failing remote call is never propagated: the `execute` returns the
static-fallback result, which has `success = true`, `mode = "static"`,
and an explicit `warning` attached.  (`abp_get_ui_examples` never
attempts a remote call at all, so the property holds for it vacuously.) -/
theorem hybrid_tools_fallback_on_remote_failure (k : String) (hk : k ≠ "")
    (msg : String) (cargs : ComponentArgs) (fargs : FormArgs)
    (fw : UiFramework) (cat : UiCategory) :
    hybridGenerateComponentExecute k (.fails msg) cargs =
      (true, { generateStaticComponent cargs with
        warning := some "API call failed, generated static template instead" })
    ∧ (hybridGenerateComponentExecute k (.fails msg) cargs).2.success = true
    ∧ (hybridGenerateComponentExecute k (.fails msg) cargs).2.mode = some "static"
    ∧ (hybridGenerateComponentExecute k (.fails msg) cargs).2.warning.isSome = true
    ∧ hybridGetThemesExecute k (.fails msg) =
      (true, { getStaticThemeInfo with
        warning := some "API call failed, showing static theme information instead" })
    ∧ (hybridGetThemesExecute k (.fails msg)).2.success = true
    ∧ (hybridGetThemesExecute k (.fails msg)).2.mode = some "static"
    ∧ (hybridGetThemesExecute k (.fails msg)).2.warning.isSome = true
    ∧ hybridGenerateFormExecute k (.fails msg) fargs =
      (true, { generateStaticForm fargs with
        warning := some "API call failed, generated static template instead" })
    ∧ (hybridGenerateFormExecute k (.fails msg) fargs).2.success = true
    ∧ (hybridGenerateFormExecute k (.fails msg) fargs).2.mode = some "static"
    ∧ (hybridGenerateFormExecute k (.fails msg) fargs).2.warning.isSome = true
    ∧ (hybridGetUiExamplesExecute fw cat).1 = false := by
  have hmode : isInfoOnlyMode k = false := by
    unfold isInfoOnlyMode
    exact beq_eq_false_iff_ne.mpr hk
  have hc : hybridGenerateComponentExecute k (.fails msg) cargs =
      (true, { generateStaticComponent cargs with
        warning := some "API call failed, generated static template instead" }) := by
    unfold hybridGenerateComponentExecute
    rw [hmode]
    rfl
  have ht : hybridGetThemesExecute k (.fails msg) =
      (true, { getStaticThemeInfo with
        warning := some "API call failed, showing static theme information instead" }) := by
    unfold hybridGetThemesExecute
    rw [hmode]
    rfl
  have hf : hybridGenerateFormExecute k (.fails msg) fargs =
      (true, { generateStaticForm fargs with
        warning := some "API call failed, generated static template instead" }) := by
    unfold hybridGenerateFormExecute
    rw [hmode]
    rfl
  refine ⟨hc, ?_, ?_, ?_, ht, ?_, ?_, ?_, hf, ?_, ?_, ?_, rfl⟩ <;>
    simp [hc, ht, hf, generateStaticComponent, generateStaticForm,
      getStaticThemeInfo]

/-- C5 (witness): the fallback theorem applied with the credential
`"secret"`, a failing remote call, and concrete arguments. -/
theorem hybrid_tools_fallback_witness :
    ("secret" : String) ≠ ""
    ∧ hybridGetThemesExecute "secret" (.fails "boom") =
        (true, { getStaticThemeInfo with
          warning := some "API call failed, showing static theme information instead" })
    ∧ (hybridGetThemesExecute "secret" (.fails "boom")).2.success = true
    ∧ (hybridGetThemesExecute "secret" (.fails "boom")).2.mode = some "static" := by
  have h := hybrid_tools_fallback_on_remote_failure "secret" (by decide) "boom"
    ⟨"MyWidget", .widget, .angular, none, none⟩
    ⟨"LoginForm", [], .vertical, none, none, none⟩ .all .all
  exact ⟨by decide, h.2.2.2.2.1, h.2.2.2.2.2.1, h.2.2.2.2.2.2.1⟩

/-- C6: For every mode and visible registry, invoking a tool name
absent from the visible set throws an error whose message references
`Unknown tool`; the throw is a value of the dispatch (`CallOutcome`),
caught by the protocol layer, so it terminates only that request. -/
theorem unknown_tool_throws (o : Options) (handlers : Registry)
    (name : String) (exec : ExecOutcome)
    (h : handlers.lookup name = none) :
    callTool o handlers name exec = .thrown ("Unknown tool: " ++ name) := by
  unfold callTool
  rw [h]

/-- C6 (witness): `abp_does_not_exist` is absent from both the full and
the restricted registry, and invoking it yields the thrown
`Unknown tool` error in both modes. -/
theorem unknown_tool_throws_witness :
    abpToolsRegistry.lookup "abp_does_not_exist" = none
    ∧ (filterInfoOnlyTools abpToolsRegistry).lookup "abp_does_not_exist" = none
    ∧ callTool ⟨some "k", false⟩ abpToolsRegistry "abp_does_not_exist" (.ok "") =
        .thrown ("Unknown tool: " ++ "abp_does_not_exist")
    ∧ callTool ⟨none, true⟩ (filterInfoOnlyTools abpToolsRegistry)
        "abp_does_not_exist" (.ok "") =
          .thrown ("Unknown tool: " ++ "abp_does_not_exist") :=
  ⟨by decide, by decide,
   unknown_tool_throws ⟨some "k", false⟩ abpToolsRegistry "abp_does_not_exist"
     (.ok "") (by decide),
   unknown_tool_throws ⟨none, true⟩ (filterInfoOnlyTools abpToolsRegistry)
     "abp_does_not_exist" (.ok "") (by decide)⟩

/-- C7: For every registry and every allow-listed name absent from the
registry, the restricted-mode filter silently skips that name: the
filtered registry simply has no binding for it, and the filter (a total
function of the registry) never throws. -/
theorem filter_skips_absent_allowlisted (r : Registry) (n : String)
    (hmem : n ∈ infoOnlyToolNames) (habs : r.lookup n = none) :
    (filterInfoOnlyTools r).lookup n = none := by
  rw [lookup_filterInfoOnlyTools r n hmem]
  exact habs

/-- C7 (witness): `abp_get_info` is allow-listed but absent from the
registry `abpTools` builds, and the filter skips it. -/
theorem filter_skips_witness :
    "abp_get_info" ∈ infoOnlyToolNames
    ∧ abpToolsRegistry.lookup "abp_get_info" = none
    ∧ (filterInfoOnlyTools abpToolsRegistry).lookup "abp_get_info" = none :=
  ⟨by decide, by decide,
   filter_skips_absent_allowlisted abpToolsRegistry "abp_get_info"
     (by decide) (by decide)⟩

/-- C8: For every argument object whose `providerName` is not in the
enumerated set `{R, U}` (including a missing field), invoking
`abp_grant_permission` fails zod validation before any network call (the
call count is 0 and the outcome is a thrown validation error); the remote
`grantPermission` call is only ever reached when `providerName` is `"R"`
or `"U"`. -/
theorem grant_permission_validates_before_network (a : RawGrantArgs)
    (api : ApiBehavior Unit)
    (h : a.providerName ≠ some "R" ∧ a.providerName ≠ some "U") :
    (grantPermissionExecute a api).1 = 0
    ∧ (∃ e, (grantPermissionExecute a api).2 = Except.error e)
    ∧ (∀ (b : RawGrantArgs) (ap : ApiBehavior Unit),
        (grantPermissionExecute b ap).1 ≠ 0 →
          b.providerName = some "R" ∨ b.providerName = some "U") := by
  refine ⟨?_, ?_, ?_⟩
  · rcases a with ⟨pn, pk, pm⟩
    rcases pn with _ | s
    · rcases pk with _ | k <;> rcases pm with _ | m <;>
        simp [grantPermissionExecute, parseGrantArgs]
    · obtain ⟨h1, h2⟩ := h
      have hs : ¬(s = "R" ∨ s = "U") := by
        rintro (rfl | rfl)
        · exact h1 rfl
        · exact h2 rfl
      rcases pk with _ | k <;> rcases pm with _ | m <;>
        simp [grantPermissionExecute, parseGrantArgs, hs]
  · rcases a with ⟨pn, pk, pm⟩
    rcases pn with _ | s
    · rcases pk with _ | k <;> rcases pm with _ | m <;>
        simp [grantPermissionExecute, parseGrantArgs]
    · obtain ⟨h1, h2⟩ := h
      have hs : ¬(s = "R" ∨ s = "U") := by
        rintro (rfl | rfl)
        · exact h1 rfl
        · exact h2 rfl
      rcases pk with _ | k <;> rcases pm with _ | m <;>
        simp [grantPermissionExecute, parseGrantArgs, hs]
  · intro b ap hne
    rcases b with ⟨pn, pk, pm⟩
    rcases pn with _ | s
    · rcases pk with _ | k <;> rcases pm with _ | m <;>
        simp [grantPermissionExecute, parseGrantArgs] at hne
    · rcases pk with _ | k <;> rcases pm with _ | m <;>
        simp [grantPermissionExecute, parseGrantArgs] at hne ⊢
      by_cases hs : s = "R" ∨ s = "U"
      · exact hs
      · rcases ap with _ | _ <;> simp [hs] at hne

/-- C8 (witness): the validation theorem applied at the concrete argument
object `{providerName: "X", providerKey: "admin", permissionName:
"AbpIdentity.Users"}` with a remote that would succeed if reached. -/
theorem grant_permission_validates_witness :
    ((⟨some "X", some "admin", some "AbpIdentity.Users"⟩ : RawGrantArgs).providerName ≠ some "R"
      ∧ (⟨some "X", some "admin", some "AbpIdentity.Users"⟩ : RawGrantArgs).providerName ≠ some "U")
    ∧ (grantPermissionExecute ⟨some "X", some "admin", some "AbpIdentity.Users"⟩
        (.succeeds ())).1 = 0
    ∧ (∃ e, (grantPermissionExecute ⟨some "X", some "admin", some "AbpIdentity.Users"⟩
        (.succeeds ())).2 = Except.error e)
    ∧ (∀ (b : RawGrantArgs) (ap : ApiBehavior Unit),
        (grantPermissionExecute b ap).1 ≠ 0 →
          b.providerName = some "R" ∨ b.providerName = some "U") :=
  ⟨by decide,
   grant_permission_validates_before_network
     ⟨some "X", some "admin", some "AbpIdentity.Users"⟩ (.succeeds ()) (by decide)⟩

/-- C9: The registry merge used by `abpTools` is JavaScript object
spread: when two contributing groups bind the same tool name, the merged
registry silently keeps the later group's definition (last-write-wins),
with no error; a name bound in only one group keeps that group's
definition unchanged. -/
theorem spread_merge_last_write_wins (a b : Registry) (n : String)
    (h : ToolHandler) :
    (b.lookup n = some h → (a.spread b).lookup n = some h)
    ∧ (b.lookup n = none → (a.spread b).lookup n = a.lookup n) :=
  ⟨lookup_spread_of_some a b n h, lookup_spread_of_none a b n⟩

/-- C9 (witness): spreading `hybridUiTools` before `uiTools` (two real
groups that both bind `abp_get_themes`) keeps the later, ui-tools
binding, silently. -/
theorem spread_merge_witness :
    uiToolsRegistry.lookup "abp_get_themes" =
      some ⟨"abp_get_themes", .uiGetThemes⟩
    ∧ (hybridUiToolsRegistry.spread uiToolsRegistry).lookup "abp_get_themes" =
        some ⟨"abp_get_themes", .uiGetThemes⟩ :=
  ⟨by decide,
   (spread_merge_last_write_wins hybridUiToolsRegistry uiToolsRegistry
     "abp_get_themes" ⟨"abp_get_themes", .uiGetThemes⟩).1 (by decide)⟩

/-- C10 (counterexample): the claim fails on the code at `getThemes`
(abp-api-client.ts line 452, `return response.data.items || [];`): a
bare-array response carrying one theme is discarded and replaced by the
empty list. -/
theorem bare_array_discarded_by_getThemes :
    getThemes_unwrap (.bare [⟨"LeptonX", none, none, none⟩]) = []
    ∧ ([⟨"LeptonX", none, none, none⟩] : List AbpTheme) ≠ [] :=
  ⟨rfl, by decide⟩

/-- C10 (amended): every list endpoint unwraps an `items` envelope to its
items array; the domain list endpoints (applications, modules, entities,
permissions, permissions-by-group, users, tenants, audit logs, background
jobs) also return a bare-array body unchanged, but the six
UI/localization list endpoints (themes, layouts, menus, widgets,
localization resources, supported cultures) replace a bare-array body
with the empty list. -/
theorem list_endpoint_unwrapping :
    (∀ l : List AbpApplication,
      getApplications_unwrap (.wrapped l) = l ∧ getApplications_unwrap (.bare l) = l)
    ∧ (∀ l : List AbpModule,
      getModules_unwrap (.wrapped l) = l ∧ getModules_unwrap (.bare l) = l)
    ∧ (∀ l : List AbpEntity,
      getEntities_unwrap (.wrapped l) = l ∧ getEntities_unwrap (.bare l) = l)
    ∧ (∀ l : List AbpPermission,
      getPermissions_unwrap (.wrapped l) = l ∧ getPermissions_unwrap (.bare l) = l)
    ∧ (∀ l : List AbpPermission,
      getPermissionsByGroup_unwrap (.wrapped l) = l
        ∧ getPermissionsByGroup_unwrap (.bare l) = l)
    ∧ (∀ l : List AbpUser,
      getUsers_unwrap (.wrapped l) = l ∧ getUsers_unwrap (.bare l) = l)
    ∧ (∀ l : List AbpTenant,
      getTenants_unwrap (.wrapped l) = l ∧ getTenants_unwrap (.bare l) = l)
    ∧ (∀ l : List AbpAuditLog,
      getAuditLogs_unwrap (.wrapped l) = l ∧ getAuditLogs_unwrap (.bare l) = l)
    ∧ (∀ l : List AbpBackgroundJob,
      getBackgroundJobs_unwrap (.wrapped l) = l
        ∧ getBackgroundJobs_unwrap (.bare l) = l)
    ∧ (∀ l : List AbpTheme,
      getThemes_unwrap (.wrapped l) = l ∧ getThemes_unwrap (.bare l) = [])
    ∧ (∀ l : List AbpLayout,
      getLayouts_unwrap (.wrapped l) = l ∧ getLayouts_unwrap (.bare l) = [])
    ∧ (∀ l : List AbpMenu,
      getMenus_unwrap (.wrapped l) = l ∧ getMenus_unwrap (.bare l) = [])
    ∧ (∀ l : List AbpWidget,
      getWidgets_unwrap (.wrapped l) = l ∧ getWidgets_unwrap (.bare l) = [])
    ∧ (∀ l : List AbpLocalizationResource,
      getLocalizationResources_unwrap (.wrapped l) = l
        ∧ getLocalizationResources_unwrap (.bare l) = [])
    ∧ (∀ l : List AbpCulture,
      getSupportedCultures_unwrap (.wrapped l) = l
        ∧ getSupportedCultures_unwrap (.bare l) = []) :=
  ⟨fun _ => ⟨rfl, rfl⟩, fun _ => ⟨rfl, rfl⟩, fun _ => ⟨rfl, rfl⟩,
   fun _ => ⟨rfl, rfl⟩, fun _ => ⟨rfl, rfl⟩, fun _ => ⟨rfl, rfl⟩,
   fun _ => ⟨rfl, rfl⟩, fun _ => ⟨rfl, rfl⟩, fun _ => ⟨rfl, rfl⟩,
   fun _ => ⟨rfl, rfl⟩, fun _ => ⟨rfl, rfl⟩, fun _ => ⟨rfl, rfl⟩,
   fun _ => ⟨rfl, rfl⟩, fun _ => ⟨rfl, rfl⟩, fun _ => ⟨rfl, rfl⟩⟩
